import Mathlib

/-!
Shallow embedding of `src/HoldenVivaJVC/HoldenVivaJVC.ino`.

The sketch reads one analog sample, classifies it into a button code
(`getButton`), and emulates presses on five digital lines.  We model the
Arduino pin API (`pinMode`, `digitalWrite`, `delay`) as transformers of an
explicit machine state that also records the ordered trace of pin events,
and we model `analogRead` by threading an explicit list of pending samples:
each poll consumes the head of the list.
-/

namespace HoldenVivaJVC

/-- The five digital output lines of the sketch
(`powerPin`, `modePin`, `seekPin`, `volAPin`, `volBPin`). -/
inductive Pin : Type
  | power
  | mode
  | seek
  | volA
  | volB
deriving DecidableEq, Repr

/-- Direction of a line: high-impedance input vs driven output
(`pinMode(p, INPUT)` / `pinMode(p, OUTPUT)`). -/
inductive Dir : Type
  | input
  | output
deriving DecidableEq, Repr

/-- Logic level latch of a line (`digitalWrite(p, LOW/HIGH)`). -/
inductive Level : Type
  | low
  | high
deriving DecidableEq, Repr

/-- Direction and level latch of the five output lines.  The level latch
persists across direction changes, as the AVR PORT register does. -/
structure PinState : Type where
  powerDir : Dir
  powerLevel : Level
  modeDir : Dir
  modeLevel : Level
  seekDir : Dir
  seekLevel : Level
  volADir : Dir
  volALevel : Level
  volBDir : Dir
  volBLevel : Level
deriving DecidableEq, Repr

/-- Update the direction of one pin. -/
def setDirPin (ps : PinState) (p : Pin) (d : Dir) : PinState :=
  match p with
  | Pin.power => { ps with powerDir := d }
  | Pin.mode => { ps with modeDir := d }
  | Pin.seek => { ps with seekDir := d }
  | Pin.volA => { ps with volADir := d }
  | Pin.volB => { ps with volBDir := d }

/-- Update the level latch of one pin. -/
def setLevelPin (ps : PinState) (p : Pin) (l : Level) : PinState :=
  match p with
  | Pin.power => { ps with powerLevel := l }
  | Pin.mode => { ps with modeLevel := l }
  | Pin.seek => { ps with seekLevel := l }
  | Pin.volA => { ps with volALevel := l }
  | Pin.volB => { ps with volBLevel := l }

/-- Observable pin events, in program order. -/
inductive Event : Type
  | setDir (p : Pin) (d : Dir)
  | write (p : Pin) (l : Level)
  | delayMs (n : Nat)
deriving DecidableEq, Repr

/-- Machine state: the five pins, the global `currentButton`, and the
trace of pin events emitted so far. -/
structure St : Type where
  pins : PinState
  currentButton : Nat
  events : List Event
deriving DecidableEq, Repr

/-- `pinMode(p, d)`: set the direction and record the event. -/
def pinMode (p : Pin) (d : Dir) (s : St) : St :=
  { s with pins := setDirPin s.pins p d, events := s.events ++ [Event.setDir p d] }

/-- `digitalWrite(p, l)`: set the level latch and record the event. -/
def digitalWrite (p : Pin) (l : Level) (s : St) : St :=
  { s with pins := setLevelPin s.pins p l, events := s.events ++ [Event.write p l] }

/-- `delay(n)`: record the pause; no pin changes. -/
def delay (n : Nat) (s : St) : St :=
  { s with events := s.events ++ [Event.delayMs n] }

/-- Power-on reset state of the AVR: every line is a high-impedance input
with its level latch low, `currentButton = 0`, empty trace. -/
def initSt : St :=
  { pins :=
      { powerDir := Dir.input, powerLevel := Level.low
        modeDir := Dir.input, modeLevel := Level.low
        seekDir := Dir.input, seekLevel := Level.low
        volADir := Dir.input, volALevel := Level.low
        volBDir := Dir.input, volBLevel := Level.low }
    currentButton := 0
    events := [] }

/-- `setup()` (lines 62-77): power, mode, seek lines as inputs; the two
volume lines as outputs, then both driven low. -/
def setup (s : St) : St :=
  s |> pinMode Pin.power Dir.input
    |> pinMode Pin.mode Dir.input
    |> pinMode Pin.seek Dir.input
    |> pinMode Pin.volA Dir.output
    |> pinMode Pin.volB Dir.output
    |> digitalWrite Pin.volA Level.low
    |> digitalWrite Pin.volB Level.low

/-- `getButton()` (lines 166-184): classify one sample into a button code.
`0 = none, 1 = Vol Down, 2 = Vol Up, 3 = Seek, 4 = Mode, 5 = Pwr`.
All comparisons are strict, exactly as in the source. -/
def getButton (s : Nat) : Nat :=
  if s < 244 then 1
  else if 244 < s ∧ s < 619 then 2
  else if 619 < s ∧ s < 796 then 3
  else if 796 < s ∧ s < 907 then 4
  else if 907 < s ∧ s < 988 then 5
  else 0

/-- The classifier as the spec words it (section 4.1): six half-open
bands, each threshold belonging to the higher band.  Used only to compare
the spec's cut semantics with `getButton`. -/
def specClassify (s : Nat) : Nat :=
  if s < 244 then 1
  else if s < 619 then 2
  else if s < 796 then 3
  else if s < 907 then 4
  else if s < 988 then 5
  else 0

/-- `setupVolume()` (lines 189-194). -/
def setupVolume (s : St) : St :=
  s |> pinMode Pin.volA Dir.output
    |> pinMode Pin.volB Dir.output
    |> digitalWrite Pin.volA Level.low
    |> digitalWrite Pin.volB Level.low

/-- `resetVolume()` (lines 199-202). -/
def resetVolume (s : St) : St :=
  s |> pinMode Pin.volA Dir.input
    |> pinMode Pin.volB Dir.input

/-- `volumeDown()` (lines 207-228): B up first, then A; B down first, then A. -/
def volumeDown (s : St) : St :=
  s |> setupVolume
    |> digitalWrite Pin.volB Level.high
    |> delay 10
    |> digitalWrite Pin.volA Level.high
    |> delay 10
    |> digitalWrite Pin.volB Level.low
    |> delay 10
    |> digitalWrite Pin.volA Level.low
    |> delay 10
    |> resetVolume

/-- `volumeUp()` (lines 233-254): A up first, then B; A down first, then B. -/
def volumeUp (s : St) : St :=
  s |> setupVolume
    |> digitalWrite Pin.volA Level.high
    |> delay 10
    |> digitalWrite Pin.volB Level.high
    |> delay 10
    |> digitalWrite Pin.volA Level.low
    |> delay 10
    |> digitalWrite Pin.volB Level.low
    |> delay 10
    |> resetVolume

/-- `while(getButton() == b) { delay(50); }`: consume samples until one
classifies differently from `b`; the exiting sample is consumed too.
An exhausted sample list ends the wait (the physical loop would keep
polling; theorems only use lists that do leave the band). -/
def holdWait (b : Nat) : List Nat → St → List Nat × St
  | [], s => ([], s)
  | x :: xs, s =>
      if getButton x = b then holdWait b xs (delay 50 s)
      else (xs, s)

/-- The Seek branch of `loop()` (lines 111-122): drive the line low, wait
for release, drive high, restore input. -/
def seekAction (samples : List Nat) (s : St) : List Nat × St :=
  let s1 := digitalWrite Pin.seek Level.low (pinMode Pin.seek Dir.output s)
  let r := holdWait 3 samples s1
  (r.1, pinMode Pin.seek Dir.input (digitalWrite Pin.seek Level.high r.2))

/-- The Mode branch of `loop()` (lines 126-137). -/
def modeAction (samples : List Nat) (s : St) : List Nat × St :=
  let s1 := digitalWrite Pin.mode Level.low (pinMode Pin.mode Dir.output s)
  let r := holdWait 4 samples s1
  (r.1, pinMode Pin.mode Dir.input (digitalWrite Pin.mode Level.high r.2))

/-- The Power branch of `loop()` (lines 141-152). -/
def powerAction (samples : List Nat) (s : St) : List Nat × St :=
  let s1 := digitalWrite Pin.power Level.low (pinMode Pin.power Dir.output s)
  let r := holdWait 5 samples s1
  (r.1, pinMode Pin.power Dir.input (digitalWrite Pin.power Level.high r.2))

/-- One iteration of `loop()` (lines 82-157): read one sample into
`currentButton`, then the five sequential guards (all testing the same
unmodified `currentButton`), then `delay(100)`.  Returns the samples not
yet consumed together with the new state.  An empty sample list leaves
the state unchanged (the physical loop would block on `analogRead`). -/
def loopIter (samples : List Nat) (s : St) : List Nat × St :=
  match samples with
  | [] => ([], s)
  | x :: xs =>
      let b := getButton x
      let s0 : St := { s with currentButton := b }
      let r :=
        if b ≠ 0 then
          let r1 := if b = 1 then (xs, delay 50 (volumeDown s0)) else (xs, s0)
          let r2 := if b = 2 then (r1.1, delay 50 (volumeUp r1.2)) else r1
          let r3 := if b = 3 then seekAction r2.1 r2.2 else r2
          let r4 := if b = 4 then modeAction r3.1 r3.2 else r3
          if b = 5 then powerAction r4.1 r4.2 else r4
        else (xs, s0)
      (r.1, delay 100 r.2)

/-- The branch codes dispatched by the five sequential guards of `loop()`
for a given value of `currentButton` (mirrors lines 95, 103, 111, 126, 141). -/
def dispatchedBranches (b : Nat) : List Nat :=
  (if b = 1 then [1] else []) ++ (if b = 2 then [2] else []) ++
    (if b = 3 then [3] else []) ++ (if b = 4 then [4] else []) ++
    (if b = 5 then [5] else [])

/-- The full pin-event trace of one `volumeUp()` call. -/
def volUpTrace : List Event :=
  [Event.setDir Pin.volA Dir.output, Event.setDir Pin.volB Dir.output,
   Event.write Pin.volA Level.low, Event.write Pin.volB Level.low,
   Event.write Pin.volA Level.high, Event.delayMs 10,
   Event.write Pin.volB Level.high, Event.delayMs 10,
   Event.write Pin.volA Level.low, Event.delayMs 10,
   Event.write Pin.volB Level.low, Event.delayMs 10,
   Event.setDir Pin.volA Dir.input, Event.setDir Pin.volB Dir.input]

/-- The full pin-event trace of one `volumeDown()` call. -/
def volDownTrace : List Event :=
  [Event.setDir Pin.volA Dir.output, Event.setDir Pin.volB Dir.output,
   Event.write Pin.volA Level.low, Event.write Pin.volB Level.low,
   Event.write Pin.volB Level.high, Event.delayMs 10,
   Event.write Pin.volA Level.high, Event.delayMs 10,
   Event.write Pin.volB Level.low, Event.delayMs 10,
   Event.write Pin.volA Level.low, Event.delayMs 10,
   Event.setDir Pin.volA Dir.input, Event.setDir Pin.volB Dir.input]

/-- Exchange the two volume lines. -/
def swapPin : Pin → Pin
  | Pin.volA => Pin.volB
  | Pin.volB => Pin.volA
  | p => p

/-- Exchange the two volume lines inside an event. -/
def swapVol : Event → Event
  | Event.setDir p d => Event.setDir (swapPin p) d
  | Event.write p l => Event.write (swapPin p) l
  | e => e

/-- The timing shape of a trace: delays kept, pin events abstracted. -/
def eventDelay : Event → Option Nat
  | Event.delayMs n => some n
  | _ => none

/-- The edges (level-changing writes) a trace produces on the two volume
lines, given the levels both lines hold on entry. -/
def volEdges : Level → Level → List Event → List Event
  | _, _, [] => []
  | la, lb, Event.write Pin.volA l :: rest =>
      if l = la then volEdges la lb rest
      else Event.write Pin.volA l :: volEdges l lb rest
  | la, lb, Event.write Pin.volB l :: rest =>
      if l = lb then volEdges la lb rest
      else Event.write Pin.volB l :: volEdges la l rest
  | la, lb, _ :: rest => volEdges la lb rest

/-- The pin-event trace of one Seek dispatch held for two further polls:
one down transition, two 50 ms release polls, one up transition, restore
input, then the main 100 ms loop delay. -/
def seekHold3Trace : List Event :=
  [Event.setDir Pin.seek Dir.output, Event.write Pin.seek Level.low,
   Event.delayMs 50, Event.delayMs 50,
   Event.write Pin.seek Level.high, Event.setDir Pin.seek Dir.input,
   Event.delayMs 100]

/-- A machine state in which every line is an input with its latch high,
as each line is after its first completed level-held press. -/
def allHighSt : St :=
  { pins :=
      { powerDir := Dir.input, powerLevel := Level.high
        modeDir := Dir.input, modeLevel := Level.high
        seekDir := Dir.input, seekLevel := Level.high
        volADir := Dir.input, volALevel := Level.low
        volBDir := Dir.input, volBLevel := Level.low }
    currentButton := 0
    events := [] }

end HoldenVivaJVC

namespace HoldenVivaJVC

/-- C7: `getButton` maps 100 to VolumeDown (1), 500 to VolumeUp (2), 700 to
Seek (3), 850 to Mode (4), 950 to Power (5), and 1000 to None (0). -/
theorem getButton_scenario1 :
    getButton 100 = 1 ∧ getButton 500 = 2 ∧ getButton 700 = 3 ∧
      getButton 850 = 4 ∧ getButton 950 = 5 ∧ getButton 1000 = 0 := by
  decide

/-- C1 counterexample: the claim says a sample exactly at threshold 244
classifies as VolumeUp (2) per the half-open convention, but `getButton`
uses strict comparisons on both sides of each interior band, so 244
satisfies neither `s < 244` nor `244 < s` and falls through to None (0);
likewise 619, 796 and 907 do not classify as Seek, Mode and Power. -/
theorem getButton_threshold_counterexample :
    getButton 244 = 0 ∧ getButton 244 ≠ 2 ∧ getButton 619 ≠ 3 ∧
      getButton 796 ≠ 4 ∧ getButton 907 ≠ 5 := by
  decide

/-- C1 amended: a sample exactly equal to any of the five calibration
thresholds classifies as None (0): the four interior thresholds fall into
no button band because both adjacent comparisons are strict, and 988 falls
through to the default None as the claim already said. -/
theorem getButton_thresholds :
    getButton 244 = 0 ∧ getButton 619 = 0 ∧ getButton 796 = 0 ∧
      getButton 907 = 0 ∧ getButton 988 = 0 := by
  decide

/-- C2 counterexample: the six half-open bands of the spec's cut points do
not reproduce `getButton`: at the boundary 244 the half-open convention
prescribes band 2 (VolumeUp), but the code returns 0 (None). -/
theorem getButton_partition_counterexample :
    specClassify 244 = 2 ∧ getButton 244 = 0 ∧
      getButton 244 ≠ specClassify 244 := by
  decide

/-- C2 amended: every sample yields exactly one of the six identities
(`getButton s ≤ 5`), and the classification agrees with the spec's
half-open bands at every sample except the four interior thresholds
244, 619, 796 and 907, which return None (0) instead of the higher band:
the code's button bands are open intervals and the four thresholds are
gaps absorbed by the None branch. -/
theorem getButton_partition (s : Nat) :
    getButton s ≤ 5 ∧
      getButton s =
        (if s = 244 ∨ s = 619 ∨ s = 796 ∨ s = 907 then 0 else specClassify s) := by
  constructor
  · unfold getButton
    split_ifs <;> omega
  · unfold getButton specClassify
    split_ifs <;> omega

/-- C2 witness: the amended characterisation evaluated at sample 244. -/
theorem getButton_partition_witness :
    getButton 244 ≤ 5 ∧
      getButton 244 =
        (if (244 : Nat) = 244 ∨ (244 : Nat) = 619 ∨ (244 : Nat) = 796 ∨
            (244 : Nat) = 907 then 0 else specClassify 244) :=
  getButton_partition 244

/-- C3: the claim (and the sketch's own header comment, lines 17-20) says
every line not actively emulating a press is a high-impedance input in
every reachable state, including immediately after initialization; but
`setup()` (lines 71-72, 75-76) configures the two volume lines as driven
outputs and writes them low, and they stay driven outputs until the first
volume action runs `resetVolume()`.  Evaluating the code just after
`setup()`: volA and volB are outputs while no press is being emulated. -/
theorem setup_volume_lines_driven :
    (setup initSt).pins.volADir = Dir.output ∧
      (setup initSt).pins.volBDir = Dir.output ∧
      (setup initSt).pins.volALevel = Level.low ∧
      (setup initSt).pins.volBLevel = Level.low ∧
      (setup initSt).pins.seekDir = Dir.input ∧
      (setup initSt).pins.modeDir = Dir.input ∧
      (setup initSt).pins.powerDir = Dir.input := by
  decide

/-- C4: `volumeUp` and `volumeDown` each emit a fixed pin-event trace;
starting from lines at their reachable entry level (both latches low, as
`setup()` and every volume action leave them), each trace produces exactly
four edges on the two volume lines — two per line, each followed by the
fixed 10 ms delay visible in the traces — the two traces have identical
timing shape, the edge sequences differ only by exchanging the two lines
(Volume Up: A rises first and A falls first; Volume Down: B rises first
and B falls first), and both lines are high-impedance inputs (with
latches back low) after each sequence completes. -/
theorem volume_quadrature (s : St) :
    (volumeUp s).events = s.events ++ volUpTrace ∧
      (volumeDown s).events = s.events ++ volDownTrace ∧
      volEdges Level.low Level.low volUpTrace =
        [Event.write Pin.volA Level.high, Event.write Pin.volB Level.high,
         Event.write Pin.volA Level.low, Event.write Pin.volB Level.low] ∧
      volEdges Level.low Level.low volDownTrace =
        (volEdges Level.low Level.low volUpTrace).map swapVol ∧
      (volEdges Level.low Level.low volUpTrace).length = 4 ∧
      volUpTrace.map eventDelay = volDownTrace.map eventDelay ∧
      (volumeUp s).pins.volADir = Dir.input ∧
      (volumeUp s).pins.volBDir = Dir.input ∧
      (volumeDown s).pins.volADir = Dir.input ∧
      (volumeDown s).pins.volBDir = Dir.input ∧
      (volumeUp s).pins.volALevel = Level.low ∧
      (volumeUp s).pins.volBLevel = Level.low := by
  refine ⟨?_, ?_, by decide, by decide, by decide, by decide,
    ?_, ?_, ?_, ?_, ?_, ?_⟩ <;>
    simp [volumeUp, volumeDown, setupVolume, resetVolume, pinMode,
      digitalWrite, delay, volUpTrace, volDownTrace, setDirPin, setLevelPin]

/-- C5 counterexample: the first Seek press after power-up does not round
trip the line's state bit-identically.  After `setup()` the seek line is
(input, latch low); the press-release sequence ends with
`digitalWrite(seekPin, HIGH); pinMode(seekPin, INPUT)`, so afterwards the
line is (input, latch high) — the direction is restored but the level
latch differs from its pre-sequence value. -/
theorem levelHeld_first_press_counterexample :
    (setup initSt).pins.seekDir = Dir.input ∧
      (setup initSt).pins.seekLevel = Level.low ∧
      getButton 700 = 3 ∧ getButton 1000 ≠ 3 ∧
      (loopIter [700, 1000] (setup initSt)).2.pins.seekDir = Dir.input ∧
      (loopIter [700, 1000] (setup initSt)).2.pins.seekLevel = Level.high ∧
      (loopIter [700, 1000] (setup initSt)).2.pins.seekLevel ≠
        (setup initSt).pins.seekLevel := by
  decide

/-- C5 amended: after the full press-detect, active-level, release-detect,
idle-restore sequence of any level-held action (Seek, Mode, Power), the
affected line is always an input with its level latch high; consequently
the line's direction and level round trip exactly whenever the
pre-sequence state was (input, high) — which holds before every press
after the first on that line, but not before the first press after
power-up, where the latch is still low. -/
theorem levelHeld_roundTrip (samples : List Nat) (st : St) :
    ((seekAction samples st).2.pins.seekDir = Dir.input ∧
        (seekAction samples st).2.pins.seekLevel = Level.high) ∧
      ((modeAction samples st).2.pins.modeDir = Dir.input ∧
        (modeAction samples st).2.pins.modeLevel = Level.high) ∧
      ((powerAction samples st).2.pins.powerDir = Dir.input ∧
        (powerAction samples st).2.pins.powerLevel = Level.high) ∧
      (st.pins.seekDir = Dir.input → st.pins.seekLevel = Level.high →
        (seekAction samples st).2.pins.seekDir = st.pins.seekDir ∧
          (seekAction samples st).2.pins.seekLevel = st.pins.seekLevel) ∧
      (st.pins.modeDir = Dir.input → st.pins.modeLevel = Level.high →
        (modeAction samples st).2.pins.modeDir = st.pins.modeDir ∧
          (modeAction samples st).2.pins.modeLevel = st.pins.modeLevel) ∧
      (st.pins.powerDir = Dir.input → st.pins.powerLevel = Level.high →
        (powerAction samples st).2.pins.powerDir = st.pins.powerDir ∧
          (powerAction samples st).2.pins.powerLevel = st.pins.powerLevel) := by
  refine ⟨⟨?_, ?_⟩, ⟨?_, ?_⟩, ⟨?_, ?_⟩,
      fun h1 h2 => ⟨?_, ?_⟩, fun h1 h2 => ⟨?_, ?_⟩, fun h1 h2 => ⟨?_, ?_⟩⟩ <;>
    simp [seekAction, modeAction, powerAction, pinMode, digitalWrite,
      setDirPin, setLevelPin, *]

/-- C5 witness: the amended round trip evaluated at a state whose lines
are already (input, high), with a sample list that leaves every band. -/
theorem levelHeld_roundTrip_witness :
    (seekAction [1000] allHighSt).2.pins.seekDir = allHighSt.pins.seekDir ∧
      (modeAction [1000] allHighSt).2.pins.modeLevel = allHighSt.pins.modeLevel ∧
      (powerAction [1000] allHighSt).2.pins.powerDir = allHighSt.pins.powerDir :=
  ⟨((levelHeld_roundTrip [1000] allHighSt).2.2.2.1 (by decide) (by decide)).1,
   ((levelHeld_roundTrip [1000] allHighSt).2.2.2.2.1 (by decide) (by decide)).2,
   ((levelHeld_roundTrip [1000] allHighSt).2.2.2.2.2 (by decide) (by decide)).1⟩

/-- C6: when the Seek band is sampled on 3 consecutive polls (one trigger
poll plus two release-wait polls) and the next sample is outside the band,
the iteration emits exactly the trace `seekHold3Trace`: one down
transition (output, then driven low), only 50 ms waits during the hold
(no repeated pulses), one up transition, restore to idle input, then the
100 ms loop delay; the seek line ends as a high-impedance input. -/
theorem seek_hold3 (s1 s2 s3 s4 : Nat) (rest : List Nat) (st : St)
    (h1 : getButton s1 = 3) (h2 : getButton s2 = 3) (h3 : getButton s3 = 3)
    (h4 : getButton s4 ≠ 3) :
    (loopIter (s1 :: s2 :: s3 :: s4 :: rest) st).1 = rest ∧
      (loopIter (s1 :: s2 :: s3 :: s4 :: rest) st).2.events =
        st.events ++ seekHold3Trace ∧
      (loopIter (s1 :: s2 :: s3 :: s4 :: rest) st).2.pins.seekDir = Dir.input := by
  refine ⟨?_, ?_, ?_⟩ <;>
    simp [loopIter, seekAction, holdWait, pinMode, digitalWrite, delay,
      h1, h2, h3, h4, seekHold3Trace, setDirPin, setLevelPin]

/-- C6 witness: the held-Seek scenario evaluated on the concrete samples
700, 700, 700, 1000 from the post-`setup()` state. -/
theorem seek_hold3_witness :
    getButton 700 = 3 ∧ getButton 1000 ≠ 3 ∧
      (loopIter [700, 700, 700, 1000] (setup initSt)).2.events =
        (setup initSt).events ++ seekHold3Trace :=
  ⟨by decide, by decide,
    (seek_hold3 700 700 700 1000 [] (setup initSt) (by decide) (by decide)
        (by decide) (by decide)).2.1⟩

/-- The release-wait loop never touches `currentButton`. -/
theorem holdWait_currentButton (b : Nat) (xs : List Nat) (s : St) :
    (holdWait b xs s).2.currentButton = s.currentButton := by
  induction xs generalizing s with
  | nil => rfl
  | cons x xs ih =>
      unfold holdWait
      by_cases h : getButton x = b
      · simp [h, ih, delay]
      · simp [h]

/-- After one loop iteration, `currentButton` holds exactly the
classification of the sample read at the top of the iteration, whatever
the rest of the machine state was. -/
theorem loopIter_currentButton (x : Nat) (rest : List Nat) (st : St) :
    (loopIter (x :: rest) st).2.currentButton = getButton x := by
  simp only [loopIter]
  split_ifs <;>
    simp [delay, volumeUp, volumeDown, seekAction, modeAction, powerAction,
      setupVolume, resetVolume, pinMode, digitalWrite, holdWait_currentButton]

/-- C8: the classifier is deterministic and state-independent: the button
an iteration computes is exactly `getButton` of the sample it reads, so
two iterations on the same sample — from any two machine states and with
any pending sample lists — record identical classifications, and nothing
but the sample affects the result. -/
theorem getButton_deterministic (st st2 : St) (x : Nat)
    (rest rest2 : List Nat) :
    (loopIter (x :: rest) st).2.currentButton = getButton x ∧
      (loopIter (x :: rest) st).2.currentButton =
        (loopIter (x :: rest2) st2).2.currentButton :=
  ⟨loopIter_currentButton x rest st,
    (loopIter_currentButton x rest st).trans
      (loopIter_currentButton x rest2 st2).symm⟩

/-- C9: an iteration whose sample classifies to None (0) changes no output
line's direction or level: the whole pin state after the iteration equals
the pin state before it, and the iteration consumes only that sample. -/
theorem loopIter_none_frame (x : Nat) (rest : List Nat) (st : St)
    (h : getButton x = 0) :
    (loopIter (x :: rest) st).2.pins = st.pins ∧
      (loopIter (x :: rest) st).1 = rest := by
  simp [loopIter, h, delay]

/-- C9 witness: the None frame property evaluated at sample 1000 from the
post-`setup()` state. -/
theorem loopIter_none_frame_witness :
    getButton 1000 = 0 ∧
      (loopIter [1000] (setup initSt)).2.pins = (setup initSt).pins :=
  ⟨by decide, (loopIter_none_frame 1000 [] (setup initSt) (by decide)).1⟩

/-- C10: at most one of the five action branches of `loop()` executes per
iteration: the guards all test the one value `currentButton` receives from
`getButton`, and they are mutually exclusive on it, so the list of
dispatched branch codes never has more than one element. -/
theorem loop_dispatch_exclusive (s : Nat) :
    (dispatchedBranches (getButton s)).length ≤ 1 := by
  unfold getButton
  split_ifs <;> decide

end HoldenVivaJVC
